import Mathlib

/-!
Shallow embedding of the statement- and cluster-configuration layer of the
scylla-rust-wrapper (cpp-rust-driver). Pointer arguments that may be NULL are
embedded as `Option`; C strings become `String`; the C status codes become the
inductive `CassError`. Machine integers: `c_int` is embedded as `Int` with
explicit `% 65536` where the source casts to `u16`; sizes and unsigned C types
become `Nat`.
-/

set_option autoImplicit false

namespace ScyllaWrapper

/-- The status codes returned by this layer (src/cass_error.rs values used in
src/statement.rs and src/cluster.rs). -/
inductive CassError where
  | CASS_OK
  | CASS_ERROR_LIB_BAD_PARAMS
  | CASS_ERROR_LIB_INDEX_OUT_OF_BOUNDS
  deriving DecidableEq, Repr

/-- scylla's `MaybeUnset`: a slot is either `Unset` or `Set v`
(src/statement.rs stores `MaybeUnset (Option CqlValue)`, so `Set none` is an
explicit NULL and `Set (some v)` a bound value). -/
inductive MaybeUnset (α : Type) where
  | Unset
  | Set (v : α)
  deriving DecidableEq, Repr

/-- Network address payload of a bind. Modelled from the spec: `CassInet`
(src/inet.rs, not under src/ here) carries raw address bytes; the conversion
into the driver value keeps those bytes. -/
structure CassInet where
  address : List Nat
  deriving DecidableEq, Repr

/-- UUID payload of a bind. Modelled from the spec: `CassUuid` (src/uuid.rs,
not under src/ here) is a pair of 64-bit halves. -/
structure CassUuid where
  time_and_version : Nat
  clock_seq_and_node : Nat
  deriving DecidableEq, Repr

/-- The driver value model for bound parameters (scylla's `CqlValue`), which
this layer treats as an unstructured payload. Floating-point payloads are
carried as their raw bit patterns (the binder only stores them, it never
computes with them). -/
inductive CqlValue where
  | TinyInt (v : Int)
  | SmallInt (v : Int)
  | Int (v : Int)
  | BigInt (v : Int)
  | Date (v : Nat)
  | Float (bits : Nat)
  | Double (bits : Nat)
  | Boolean (v : Bool)
  | Text (v : String)
  | Blob (v : List Nat)
  | Inet (v : List Nat)
  | Uuid (v : CassUuid)
  | Collection (items : List CqlValue)

/-- Collection handle passed to `cass_statement_bind_collection`. Modelled
from the spec: a nested collection value (src/collection.rs, not under src/
here); its conversion into a driver value keeps the item list. -/
structure CassCollection where
  items : List CqlValue

/-- scylla `Consistency` values used by this layer. -/
inductive Consistency where
  | Any | One | Two | Three | Quorum | All
  | LocalQuorum | EachQuorum | LocalOne | Serial | LocalSerial
  deriving DecidableEq, Repr

/-- scylla `SerialConsistency` values. -/
inductive SerialConsistency where
  | Serial | LocalSerial
  deriving DecidableEq, Repr

/-- scylla `Query` (external collaborator). Modelled from the spec: the
wrapper touches its paging size (disable / literal row-count limit), its
consistency, its tracing flag and its idempotency flag. -/
structure Query where
  contents : String
  page_size : Option Int
  consistency : Option Consistency
  tracing : Bool
  is_idempotent : Bool
  deriving DecidableEq, Repr

/-- scylla `Query::new` defaults, modelled from the spec (fresh query with no
per-query overrides). -/
def Query.new (s : String) : Query :=
  { contents := s, page_size := none, consistency := none,
    tracing := false, is_idempotent := false }

def Query.disable_paging (q : Query) : Query := { q with page_size := none }

def Query.set_page_size (q : Query) (k : Int) : Query := { q with page_size := some k }

def Query.set_consistency (q : Query) (c : Consistency) : Query :=
  { q with consistency := some c }

def Query.set_tracing (q : Query) (b : Bool) : Query := { q with tracing := b }

def Query.set_is_idempotent (q : Query) (b : Bool) : Query := { q with is_idempotent := b }

/-- scylla `PreparedStatement` (external collaborator). Modelled from the
spec: the wrapper mutates its tracing flag, paging size and idempotency flag
through `Arc::make_mut`. -/
structure PreparedStatement where
  tracing : Bool
  page_size : Option Int
  is_idempotent : Bool
  deriving DecidableEq, Repr

def PreparedStatement.set_tracing (p : PreparedStatement) (b : Bool) : PreparedStatement :=
  { p with tracing := b }

def PreparedStatement.disable_paging (p : PreparedStatement) : PreparedStatement :=
  { p with page_size := none }

def PreparedStatement.set_page_size (p : PreparedStatement) (k : Int) : PreparedStatement :=
  { p with page_size := some k }

def PreparedStatement.set_is_idempotent (p : PreparedStatement) (b : Bool) : PreparedStatement :=
  { p with is_idempotent := b }

/-- Heap of reference-counted prepared statements: cell `i` holds a strong
count and the shared value; `next` is the next fresh cell. This models
`Arc<PreparedStatement>` cells, a handle being a cell index. -/
structure ArcStore where
  cells : Nat → Nat × PreparedStatement
  next : Nat

/-- `Arc::make_mut`: if the value is shared (strong count above 1), clone it
into a fresh cell with count 1, dropping one count from the old cell, and
return the fresh cell; if this handle is the sole owner, mutate in place. -/
def ArcStore.makeMut (st : ArcStore) (id : Nat) : ArcStore × Nat :=
  let rc := (st.cells id).1
  let v := (st.cells id).2
  if rc ≤ 1 then (st, id)
  else
    ({ cells := fun j =>
         if j = st.next then (1, v)
         else if j = id then (rc - 1, v)
         else st.cells j,
       next := st.next + 1 },
     st.next)

/-- Apply a mutation to the value stored in one cell. -/
def ArcStore.modifyValue (st : ArcStore) (id : Nat)
    (f : PreparedStatement → PreparedStatement) : ArcStore :=
  { st with cells := fun j => if j = id then ((st.cells j).1, f (st.cells j).2) else st.cells j }

/-- The `Statement` enum of src/statement.rs: a uniquely owned simple query or
a reference-counted prepared statement (here: a cell index into the heap). -/
inductive Statement where
  | Simple (q : Query)
  | Prepared (id : Nat)
  deriving DecidableEq, Repr

/-- `CassStatement` of src/statement.rs. -/
structure CassStatement where
  statement : Statement
  bound_values : List (MaybeUnset (Option CqlValue))
  paging_state : Option (List Nat)

/-- `cass_statement_new_n`: a NULL query pointer yields a NULL result;
otherwise a simple statement with paging disabled, consistency ONE, and
`parameter_count` slots all `Unset`. -/
def cass_statement_new_n (query : Option String) (parameter_count : Nat) :
    Option CassStatement :=
  match query with
  | none => none
  | some query_str =>
    some { statement := .Simple (((Query.new query_str).disable_paging).set_consistency .One),
           bound_values := List.replicate parameter_count .Unset,
           paging_state := none }

/-- `cass_statement_bind_maybe_unset`: out-of-range index fails with
IndexOutOfBounds and leaves the table untouched; otherwise the slot is
overwritten. -/
def cass_statement_bind_maybe_unset (statement : CassStatement) (index : Nat)
    (value : MaybeUnset (Option CqlValue)) : CassStatement × CassError :=
  if statement.bound_values.length ≤ index then
    (statement, .CASS_ERROR_LIB_INDEX_OUT_OF_BOUNDS)
  else
    ({ statement with bound_values := statement.bound_values.set index value },
     .CASS_OK)

def cass_statement_bind_cql_value (statement : CassStatement) (index : Nat)
    (value : CqlValue) : CassStatement × CassError :=
  cass_statement_bind_maybe_unset statement index (.Set (some value))

def cass_statement_bind_null (statement : CassStatement) (index : Nat) :
    CassStatement × CassError :=
  cass_statement_bind_maybe_unset statement index (.Set none)

def cass_statement_bind_int8 (statement : CassStatement) (index : Nat) (value : Int) :
    CassStatement × CassError :=
  cass_statement_bind_cql_value statement index (.TinyInt value)

def cass_statement_bind_int16 (statement : CassStatement) (index : Nat) (value : Int) :
    CassStatement × CassError :=
  cass_statement_bind_cql_value statement index (.SmallInt value)

def cass_statement_bind_int32 (statement : CassStatement) (index : Nat) (value : Int) :
    CassStatement × CassError :=
  cass_statement_bind_cql_value statement index (.Int value)

/-- `cass_statement_bind_uint32` is only used to set a DATE. -/
def cass_statement_bind_uint32 (statement : CassStatement) (index : Nat) (value : Nat) :
    CassStatement × CassError :=
  cass_statement_bind_cql_value statement index (.Date value)

def cass_statement_bind_int64 (statement : CassStatement) (index : Nat) (value : Int) :
    CassStatement × CassError :=
  cass_statement_bind_cql_value statement index (.BigInt value)

def cass_statement_bind_float (statement : CassStatement) (index : Nat) (value : Nat) :
    CassStatement × CassError :=
  cass_statement_bind_cql_value statement index (.Float value)

def cass_statement_bind_double (statement : CassStatement) (index : Nat) (value : Nat) :
    CassStatement × CassError :=
  cass_statement_bind_cql_value statement index (.Double value)

def cass_statement_bind_bool (statement : CassStatement) (index : Nat) (value : Nat) :
    CassStatement × CassError :=
  cass_statement_bind_cql_value statement index (.Boolean (value != 0))

def cass_statement_bind_string_n (statement : CassStatement) (index : Nat) (value : String) :
    CassStatement × CassError :=
  cass_statement_bind_cql_value statement index (.Text value)

def cass_statement_bind_bytes (statement : CassStatement) (index : Nat) (value : List Nat) :
    CassStatement × CassError :=
  cass_statement_bind_cql_value statement index (.Blob value)

def cass_statement_bind_inet (statement : CassStatement) (index : Nat) (value : CassInet) :
    CassStatement × CassError :=
  cass_statement_bind_cql_value statement index (.Inet value.address)

def cass_statement_bind_uuid (statement : CassStatement) (index : Nat) (value : CassUuid) :
    CassStatement × CassError :=
  cass_statement_bind_cql_value statement index (.Uuid value)

def cass_statement_bind_collection (statement : CassStatement) (index : Nat)
    (collection : CassCollection) : CassStatement × CassError :=
  cass_statement_bind_cql_value statement index (.Collection collection.items)

/-- `cass_statement_set_tracing`: dispatch on the variant; the prepared case
goes through `Arc::make_mut` (clone before mutating when shared). The returned
statement carries the possibly-renewed cell index. -/
def cass_statement_set_tracing (st : ArcStore) (s : CassStatement) (enabled : Nat) :
    ArcStore × CassStatement × CassError :=
  match s.statement with
  | .Simple inner =>
    (st, { s with statement := .Simple (inner.set_tracing (enabled != 0)) }, .CASS_OK)
  | .Prepared inner =>
    let r := st.makeMut inner
    (r.1.modifyValue r.2 (fun p => p.set_tracing (enabled != 0)),
     { s with statement := .Prepared r.2 }, .CASS_OK)

/-- `cass_statement_set_paging_size`: page size −1 disables paging, any other
value is stored as the literal page size; the prepared case goes through
`Arc::make_mut`. -/
def cass_statement_set_paging_size (st : ArcStore) (s : CassStatement) (page_size : Int) :
    ArcStore × CassStatement × CassError :=
  match s.statement with
  | .Simple inner =>
    (st,
     { s with statement :=
        .Simple (if page_size = -1 then inner.disable_paging else inner.set_page_size page_size) },
     .CASS_OK)
  | .Prepared inner =>
    let r := st.makeMut inner
    (r.1.modifyValue r.2
       (fun p => if page_size = -1 then p.disable_paging else p.set_page_size page_size),
     { s with statement := .Prepared r.2 }, .CASS_OK)

/-- `cass_statement_set_is_idempotent`: dispatch on the variant; the prepared
case goes through `Arc::make_mut`. -/
def cass_statement_set_is_idempotent (st : ArcStore) (s : CassStatement) (is_idempotent : Nat) :
    ArcStore × CassStatement × CassError :=
  match s.statement with
  | .Simple inner =>
    (st, { s with statement := .Simple (inner.set_is_idempotent (is_idempotent != 0)) }, .CASS_OK)
  | .Prepared inner =>
    let r := st.makeMut inner
    (r.1.modifyValue r.2 (fun p => p.set_is_idempotent (is_idempotent != 0)),
     { s with statement := .Prepared r.2 }, .CASS_OK)

/-- The prepared-statement value a handle observes through its Arc. -/
def observePrepared (st : ArcStore) (s : CassStatement) : Option PreparedStatement :=
  match s.statement with
  | .Simple _ => none
  | .Prepared id => some (st.cells id).2

/-- The paging state a handle observes: the query page size for a simple
statement, the shared prepared value's page size otherwise. -/
def pagingObs (st : ArcStore) (s : CassStatement) : Option Int :=
  match s.statement with
  | .Simple q => q.page_size
  | .Prepared id => (st.cells id).2.page_size

/-! ## Cluster configuration (src/cluster.rs) -/

/-- `DcAwareness` of src/cluster.rs. -/
structure DcAwareness where
  local_dc : String
  deriving DecidableEq, Repr

/-- scylla `LatencyAwarenessBuilder` (external collaborator). Modelled from
the spec: exclusion threshold (a double, carried as its raw bit pattern),
retry period, update rate and minimum measurement count. -/
structure LatencyAwarenessBuilder where
  exclusion_threshold_bits : Nat
  retry_period_ms : Nat
  update_rate_ms : Nat
  minimum_measurements : Nat
  deriving DecidableEq, Repr

/-- `LoadBalancingConfig` of src/cluster.rs. -/
structure LoadBalancingConfig where
  token_awareness_enabled : Bool
  dc_awareness : Option DcAwareness
  latency_awareness_enabled : Bool
  latency_awareness_builder : LatencyAwarenessBuilder
  deriving DecidableEq, Repr

/-- `Default for LoadBalancingConfig` of src/cluster.rs (builder defaults
modelled from the spec). -/
def LoadBalancingConfig.default : LoadBalancingConfig :=
  { token_awareness_enabled := true,
    dc_awareness := none,
    latency_awareness_enabled := false,
    latency_awareness_builder :=
      { exclusion_threshold_bits := 0, retry_period_ms := 0,
        update_rate_ms := 0, minimum_measurements := 0 } }

/-- The retry policies matched in `cass_cluster_set_retry_policy`
(src/cluster.rs). -/
inductive RetryPolicyKind where
  | DefaultRetryPolicy
  | FallthroughRetryPolicy
  | DowngradingConsistencyRetryPolicy
  deriving DecidableEq, Repr

/-- Speculative-execution policy stored by
`cass_cluster_set_constant_speculative_execution_policy`. -/
structure SimpleSpeculativeExecutionPolicy where
  max_retry_count : Nat
  retry_interval_ms : Nat
  deriving DecidableEq, Repr

/-- scylla `ExecutionProfileBuilder` (external collaborator). Modelled from
the spec: the wrapper sets consistency, serial consistency, retry policy and
speculative-execution policy independently of each other. -/
structure ExecutionProfileBuilder where
  consistency : Option Consistency
  serial_consistency : Option SerialConsistency
  retry_policy : Option RetryPolicyKind
  speculative_execution_policy : Option SimpleSpeculativeExecutionPolicy
  deriving DecidableEq, Repr

/-- `exec_profile_builder_modify` (src/exec_profile.rs, not under src/ here).
Modelled from the spec: applies the given builder transformation in place. -/
def exec_profile_builder_modify (b : ExecutionProfileBuilder)
    (f : ExecutionProfileBuilder → ExecutionProfileBuilder) : ExecutionProfileBuilder :=
  f b

/-- Validated execution-profile name. Modelled from the spec: a key type
whose constructor (`TryFrom` in src/exec_profile.rs, not under src/ here)
rejects the empty string, so invalid keys cannot enter the map. -/
structure ExecProfileName where
  name : String
  deriving DecidableEq, Repr

/-- `ExecProfileName::try_from`: NULL has already been mapped to `none`
upstream; the empty string is rejected. Modelled from the spec. -/
def exec_profile_name_try_from (s : String) : Option ExecProfileName :=
  if s.data.isEmpty then none else some { name := s }

/-- `CassExecProfile` (src/exec_profile.rs, not under src/ here). Modelled
from the spec: a value bundle of per-query defaults; registration stores a
value snapshot (a clone). -/
structure CassExecProfile where
  consistency : Option Consistency
  serial_consistency : Option SerialConsistency
  retry_policy : Option RetryPolicyKind
  speculative_execution_policy : Option SimpleSpeculativeExecutionPolicy
  deriving DecidableEq, Repr

/-- `HashMap::insert` semantics on an association list: replace the entry for
an existing key in place, append a fresh key at the end. -/
def insertProfile (m : List (ExecProfileName × CassExecProfile))
    (k : ExecProfileName) (v : CassExecProfile) :
    List (ExecProfileName × CassExecProfile) :=
  match m with
  | [] => [(k, v)]
  | (k1, v1) :: rest =>
    if k1 = k then (k, v) :: rest else (k1, v1) :: insertProfile rest k v

/-- `HashMap::get` semantics on an association list. -/
def lookupProfile (m : List (ExecProfileName × CassExecProfile))
    (k : ExecProfileName) : Option CassExecProfile :=
  match m with
  | [] => none
  | (k1, v1) :: rest => if k1 = k then some v1 else lookupProfile rest k

/-- The compression choices of the generated `CassCompressionType` enum that
`cass_cluster_set_compression` distinguishes. -/
inductive CassCompressionType where
  | CASS_COMPRESSION_NONE
  | CASS_COMPRESSION_LZ4
  | CASS_COMPRESSION_SNAPPY
  deriving DecidableEq, Repr

/-- scylla `Compression`. -/
inductive Compression where
  | Lz4
  | Snappy
  deriving DecidableEq, Repr

/-- The C `CassConsistency` argument. Modelled from the spec: the conversion
(src/cass_types.rs, not under src/ here) maps each CQL consistency to the
driver value and rejects the rest. -/
inductive CassConsistency where
  | UNKNOWN | ANY | ONE | TWO | THREE | QUORUM | ALL
  | LOCAL_QUORUM | EACH_QUORUM | SERIAL | LOCAL_SERIAL | LOCAL_ONE
  deriving DecidableEq, Repr

/-- `CassConsistency -> Consistency` conversion. Modelled from the spec. -/
def cass_consistency_try_into (c : CassConsistency) : Option Consistency :=
  match c with
  | .ANY => some .Any
  | .ONE => some .One
  | .TWO => some .Two
  | .THREE => some .Three
  | .QUORUM => some .Quorum
  | .ALL => some .All
  | .LOCAL_QUORUM => some .LocalQuorum
  | .EACH_QUORUM => some .EachQuorum
  | .SERIAL => some .Serial
  | .LOCAL_SERIAL => some .LocalSerial
  | .LOCAL_ONE => some .LocalOne
  | .UNKNOWN => none

/-- `CassConsistency -> SerialConsistency` conversion. Modelled from the
spec: only the two serial levels convert. -/
def cass_serial_consistency_try_into (c : CassConsistency) : Option SerialConsistency :=
  match c with
  | .SERIAL => some .Serial
  | .LOCAL_SERIAL => some .LocalSerial
  | _ => none

/-- The scylla `SessionBuilder` configuration fields this layer touches
(external collaborator, modelled from the spec). -/
structure SessionBuilderConfig where
  fetch_schema_metadata : Bool
  tcp_nodelay : Bool
  connect_timeout_ms : Nat
  compression : Option Compression
  ssl_context : Option Nat
  deriving DecidableEq, Repr

/-- `CassCluster` of src/cluster.rs. -/
structure CassCluster where
  session_builder : SessionBuilderConfig
  default_execution_profile_builder : ExecutionProfileBuilder
  execution_profile_map : List (ExecProfileName × CassExecProfile)
  contact_points : List String
  port : Nat
  load_balancing_config : LoadBalancingConfig
  use_beta_protocol_version : Bool
  auth_username : Option String
  auth_password : Option String
  deriving DecidableEq, Repr

/-- `cass_cluster_new`: default port 9042, no contact points, beta protocol
off, no credentials, default execution profile with consistency LOCAL_ONE,
empty profile map, default load balancing. The scylla session-builder
defaults are modelled from the spec. -/
def cass_cluster_new : CassCluster :=
  { session_builder :=
      { fetch_schema_metadata := true, tcp_nodelay := true,
        connect_timeout_ms := 5000, compression := none, ssl_context := none },
    default_execution_profile_builder :=
      { consistency := some .LocalOne, serial_consistency := none,
        retry_policy := none, speculative_execution_policy := none },
    execution_profile_map := [],
    contact_points := [],
    port := 9042,
    load_balancing_config := LoadBalancingConfig.default,
    use_beta_protocol_version := false,
    auth_username := none,
    auth_password := none }

/-- Rust `str::split(',')` on the character sequence: comma-separated groups,
with an empty group for each leading, trailing or doubled comma; on the empty
input it yields one empty group (the Rust iterator is never empty). -/
def splitComma : List Char → List (List Char)
  | [] => [[]]
  | c :: rest =>
    if c = ',' then [] :: splitComma rest
    else
      match splitComma rest with
      | [] => [[c]]
      | g :: gs => (c :: g) :: gs

/-- Rust `str::trim`: drop whitespace from both ends. -/
def trimChars (cs : List Char) : List Char :=
  ((cs.dropWhile Char.isWhitespace).reverse.dropWhile Char.isWhitespace).reverse

/-- `str::split(',')` producing strings. -/
def splitCommaStr (s : String) : List String :=
  (splitComma s.data).map (fun g => { data := g })

/-- `str::trim` producing a string. -/
def trimStr (s : String) : String :=
  { data := trimChars s.data }

/-- `cluster_set_contact_points` (body of
`cass_cluster_set_contact_points_n`): a NULL string is BadParams; the input
is split on commas; if the split yields no entry at all
(`peek().is_none()` on the split iterator) the list is cleared; otherwise
each entry is trimmed, empty entries are dropped and the survivors are
appended to the existing list. -/
def cluster_set_contact_points (cluster : CassCluster) (contact_points : Option String) :
    CassCluster × CassError :=
  match contact_points with
  | none => (cluster, .CASS_ERROR_LIB_BAD_PARAMS)
  | some s =>
    let parts := splitCommaStr s
    if parts.isEmpty then
      ({ cluster with contact_points := [] }, .CASS_OK)
    else
      ({ cluster with contact_points :=
           cluster.contact_points ++
             (parts.map trimStr).filter (fun cp => !cp.data.isEmpty) },
       .CASS_OK)

def cass_cluster_set_use_schema (cluster : CassCluster) (enabled : Nat) : CassCluster :=
  { cluster with session_builder :=
      { cluster.session_builder with fetch_schema_metadata := enabled != 0 } }

def cass_cluster_set_tcp_nodelay (cluster : CassCluster) (enabled : Nat) : CassCluster :=
  { cluster with session_builder :=
      { cluster.session_builder with tcp_nodelay := enabled != 0 } }

def cass_cluster_set_connect_timeout (cluster : CassCluster) (timeout_ms : Nat) : CassCluster :=
  { cluster with session_builder :=
      { cluster.session_builder with connect_timeout_ms := timeout_ms } }

/-- `cass_cluster_set_port`: a non-positive port is BadParams and nothing is
written; otherwise the port is stored via the Rust `as u16` cast, i.e. taken
modulo 2^16. -/
def cass_cluster_set_port (cluster : CassCluster) (port : Int) : CassCluster × CassError :=
  if port ≤ 0 then
    (cluster, .CASS_ERROR_LIB_BAD_PARAMS)
  else
    ({ cluster with port := (port % 65536).toNat }, .CASS_OK)

def cass_cluster_set_credentials_n (cluster : CassCluster) (username password : String) :
    CassCluster :=
  { cluster with auth_username := some username, auth_password := some password }

def cass_cluster_set_load_balance_round_robin (cluster : CassCluster) : CassCluster :=
  { cluster with load_balancing_config :=
      { cluster.load_balancing_config with dc_awareness := none } }

/-- `set_load_balance_dc_aware_n`: NULL or empty local-dc is BadParams; any
nonzero legacy parameter is BadParams; otherwise dc-awareness records the
local datacenter. The checks happen in source order, before any mutation. -/
def set_load_balance_dc_aware_n (cfg : LoadBalancingConfig) (local_dc : Option String)
    (used_hosts_per_remote_dc : Nat) (allow_remote_dcs_for_local_cl : Nat) :
    LoadBalancingConfig × CassError :=
  match local_dc with
  | none => (cfg, .CASS_ERROR_LIB_BAD_PARAMS)
  | some s =>
    if s.length = 0 then (cfg, .CASS_ERROR_LIB_BAD_PARAMS)
    else if used_hosts_per_remote_dc ≠ 0 ∨ allow_remote_dcs_for_local_cl ≠ 0 then
      (cfg, .CASS_ERROR_LIB_BAD_PARAMS)
    else
      ({ cfg with dc_awareness := some { local_dc := s } }, .CASS_OK)

def cass_cluster_set_load_balance_dc_aware_n (cluster : CassCluster)
    (local_dc : Option String) (used_hosts_per_remote_dc allow_remote_dcs_for_local_cl : Nat) :
    CassCluster × CassError :=
  let r := set_load_balance_dc_aware_n cluster.load_balancing_config local_dc
    used_hosts_per_remote_dc allow_remote_dcs_for_local_cl
  ({ cluster with load_balancing_config := r.1 }, r.2)

def cass_cluster_set_use_beta_protocol_version (cluster : CassCluster) (enable : Nat) :
    CassCluster × CassError :=
  ({ cluster with use_beta_protocol_version := enable = 1 }, .CASS_OK)

/-- `cass_cluster_set_protocol_version`: reads the cluster through a shared
reference (it cannot mutate); OK exactly when the version is 4 and beta mode
is off, BadParams otherwise. -/
def cass_cluster_set_protocol_version (cluster : CassCluster) (protocol_version : Int) :
    CassError :=
  if protocol_version = 4 ∧ ¬cluster.use_beta_protocol_version then
    .CASS_OK
  else
    .CASS_ERROR_LIB_BAD_PARAMS

/-- `cass_cluster_set_exponential_reconnect`: validates the delays but stores
nothing yet (FIXME in the source). -/
def cass_cluster_set_exponential_reconnect (base_delay_ms max_delay_ms : Nat) : CassError :=
  if base_delay_ms ≤ 1 then .CASS_ERROR_LIB_BAD_PARAMS
  else if max_delay_ms ≤ 1 then .CASS_ERROR_LIB_BAD_PARAMS
  else if max_delay_ms < base_delay_ms then .CASS_ERROR_LIB_BAD_PARAMS
  else .CASS_OK

def cass_cluster_set_constant_speculative_execution_policy (cluster : CassCluster)
    (constant_delay_ms : Int) (max_speculative_executions : Int) : CassCluster × CassError :=
  if constant_delay_ms < 0 ∨ max_speculative_executions < 0 then
    (cluster, .CASS_ERROR_LIB_BAD_PARAMS)
  else
    let policy : SimpleSpeculativeExecutionPolicy :=
      { max_retry_count := max_speculative_executions.toNat,
        retry_interval_ms := constant_delay_ms.toNat }
    ({ cluster with default_execution_profile_builder :=
         (exec_profile_builder_modify cluster.default_execution_profile_builder
           (fun b => { b with speculative_execution_policy := some policy })) },
     .CASS_OK)

def cass_cluster_set_no_speculative_execution_policy (cluster : CassCluster) :
    CassCluster × CassError :=
  ({ cluster with default_execution_profile_builder :=
       (exec_profile_builder_modify cluster.default_execution_profile_builder
         (fun b => { b with speculative_execution_policy := none })) },
   .CASS_OK)

def cass_cluster_set_token_aware_routing (cluster : CassCluster) (enabled : Nat) : CassCluster :=
  { cluster with load_balancing_config :=
      { cluster.load_balancing_config with token_awareness_enabled := enabled != 0 } }

def cass_cluster_set_retry_policy (cluster : CassCluster) (retry_policy : RetryPolicyKind) :
    CassCluster :=
  { cluster with default_execution_profile_builder :=
      (exec_profile_builder_modify cluster.default_execution_profile_builder
        (fun b => { b with retry_policy := some retry_policy })) }

def cass_cluster_set_ssl (cluster : CassCluster) (ssl_context : Nat) : CassCluster :=
  { cluster with session_builder :=
      { cluster.session_builder with ssl_context := some ssl_context } }

def cass_cluster_set_compression (cluster : CassCluster)
    (compression_type : CassCompressionType) : CassCluster :=
  let compression := match compression_type with
    | .CASS_COMPRESSION_LZ4 => some Compression.Lz4
    | .CASS_COMPRESSION_SNAPPY => some Compression.Snappy
    | _ => none
  { cluster with session_builder :=
      { cluster.session_builder with compression := compression } }

def cass_cluster_set_latency_aware_routing (cluster : CassCluster) (enabled : Nat) :
    CassCluster :=
  { cluster with load_balancing_config :=
      { cluster.load_balancing_config with latency_awareness_enabled := enabled != 0 } }

def cass_cluster_set_latency_aware_routing_settings (cluster : CassCluster)
    (exclusion_threshold_bits : Nat) (_scale_ms retry_period_ms update_rate_ms min_measured : Nat) :
    CassCluster :=
  { cluster with load_balancing_config :=
      { cluster.load_balancing_config with latency_awareness_builder :=
          { exclusion_threshold_bits := exclusion_threshold_bits,
            retry_period_ms := retry_period_ms,
            update_rate_ms := update_rate_ms,
            minimum_measurements := min_measured } } }

def cass_cluster_set_consistency (cluster : CassCluster) (consistency : CassConsistency) :
    CassCluster × CassError :=
  match cass_consistency_try_into consistency with
  | none => (cluster, .CASS_ERROR_LIB_BAD_PARAMS)
  | some c =>
    ({ cluster with default_execution_profile_builder :=
         (exec_profile_builder_modify cluster.default_execution_profile_builder
           (fun b => { b with consistency := some c })) },
     .CASS_OK)

def cass_cluster_set_serial_consistency (cluster : CassCluster)
    (serial_consistency : CassConsistency) : CassCluster × CassError :=
  match cass_serial_consistency_try_into serial_consistency with
  | none => (cluster, .CASS_ERROR_LIB_BAD_PARAMS)
  | some c =>
    ({ cluster with default_execution_profile_builder :=
         (exec_profile_builder_modify cluster.default_execution_profile_builder
           (fun b => { b with serial_consistency := some c })) },
     .CASS_OK)

/-- `cass_cluster_set_execution_profile_n`: a NULL or empty name is BadParams
(rejected by the validated name type), a NULL profile is BadParams; otherwise
a snapshot of the profile is inserted under the name, overwriting any
existing entry. Validation happens before any map mutation. -/
def cass_cluster_set_execution_profile_n (cluster : CassCluster)
    (name : Option String) (profile : Option CassExecProfile) : CassCluster × CassError :=
  match name.bind exec_profile_name_try_from with
  | none => (cluster, .CASS_ERROR_LIB_BAD_PARAMS)
  | some n =>
    match profile with
    | none => (cluster, .CASS_ERROR_LIB_BAD_PARAMS)
    | some p =>
      ({ cluster with execution_profile_map := insertProfile cluster.execution_profile_map n p },
       .CASS_OK)

/-- One call of the mutating cluster-configuration surface of
src/cluster.rs, used to state frame properties over arbitrary call
sequences. -/
inductive ClusterOp where
  | set_contact_points (s : Option String)
  | set_use_schema (enabled : Nat)
  | set_tcp_nodelay (enabled : Nat)
  | set_connect_timeout (timeout_ms : Nat)
  | set_port (port : Int)
  | set_credentials (username password : String)
  | set_load_balance_round_robin
  | set_load_balance_dc_aware (local_dc : Option String) (used_hosts allow_remote : Nat)
  | set_use_beta_protocol_version (enable : Nat)
  | set_protocol_version (v : Int)
  | set_exponential_reconnect (base_delay_ms max_delay_ms : Nat)
  | set_constant_speculative_execution_policy (constant_delay_ms max_executions : Int)
  | set_no_speculative_execution_policy
  | set_token_aware_routing (enabled : Nat)
  | set_retry_policy (r : RetryPolicyKind)
  | set_ssl (ssl_context : Nat)
  | set_compression (t : CassCompressionType)
  | set_latency_aware_routing (enabled : Nat)
  | set_latency_aware_routing_settings (et scale retry upd min : Nat)
  | set_consistency (c : CassConsistency)
  | set_serial_consistency (c : CassConsistency)
  | set_execution_profile (name : Option String) (p : Option CassExecProfile)

/-- Apply one configuration call to a cluster, returning the new state and
the status (void setters report OK). -/
def applyOp (cluster : CassCluster) : ClusterOp → CassCluster × CassError
  | .set_contact_points s => cluster_set_contact_points cluster s
  | .set_use_schema e => (cass_cluster_set_use_schema cluster e, .CASS_OK)
  | .set_tcp_nodelay e => (cass_cluster_set_tcp_nodelay cluster e, .CASS_OK)
  | .set_connect_timeout t => (cass_cluster_set_connect_timeout cluster t, .CASS_OK)
  | .set_port p => cass_cluster_set_port cluster p
  | .set_credentials u pw => (cass_cluster_set_credentials_n cluster u pw, .CASS_OK)
  | .set_load_balance_round_robin => (cass_cluster_set_load_balance_round_robin cluster, .CASS_OK)
  | .set_load_balance_dc_aware dc uh ar =>
      cass_cluster_set_load_balance_dc_aware_n cluster dc uh ar
  | .set_use_beta_protocol_version e => cass_cluster_set_use_beta_protocol_version cluster e
  | .set_protocol_version v => (cluster, cass_cluster_set_protocol_version cluster v)
  | .set_exponential_reconnect b m => (cluster, cass_cluster_set_exponential_reconnect b m)
  | .set_constant_speculative_execution_policy d m =>
      cass_cluster_set_constant_speculative_execution_policy cluster d m
  | .set_no_speculative_execution_policy =>
      cass_cluster_set_no_speculative_execution_policy cluster
  | .set_token_aware_routing e => (cass_cluster_set_token_aware_routing cluster e, .CASS_OK)
  | .set_retry_policy r => (cass_cluster_set_retry_policy cluster r, .CASS_OK)
  | .set_ssl c => (cass_cluster_set_ssl cluster c, .CASS_OK)
  | .set_compression t => (cass_cluster_set_compression cluster t, .CASS_OK)
  | .set_latency_aware_routing e => (cass_cluster_set_latency_aware_routing cluster e, .CASS_OK)
  | .set_latency_aware_routing_settings et sc rp ur mm =>
      (cass_cluster_set_latency_aware_routing_settings cluster et sc rp ur mm, .CASS_OK)
  | .set_consistency c => cass_cluster_set_consistency cluster c
  | .set_serial_consistency c => cass_cluster_set_serial_consistency cluster c
  | .set_execution_profile n p => cass_cluster_set_execution_profile_n cluster n p

/-- A call that validly sets the port: `cass_cluster_set_port` with a
positive argument. -/
def ClusterOp.isValidSetPort : ClusterOp → Prop
  | .set_port p => 0 < p
  | _ => False

instance (op : ClusterOp) : Decidable op.isValidSetPort := by
  cases op <;> simp [ClusterOp.isValidSetPort] <;> infer_instance

/-! ## Theorems -/

/-- A concrete statement with two parameter slots, used by witnesses. -/
def sampleStatement2 : CassStatement :=
  { statement := .Simple (((Query.new "INSERT INTO t VALUES (?, ?)").disable_paging).set_consistency .One),
    bound_values := [.Unset, .Unset],
    paging_state := none }

/-- C1: for a statement whose binding table has `n` slots, every bind
operation (null, int8/16/32/64, uint32, float, double, bool, string, bytes,
inet, uuid, collection) at an index `i ≥ n` returns IndexOutOfBounds and
returns the statement unchanged, so every slot of the binding table keeps its
pre-call value. -/
theorem bind_out_of_range_fails_and_preserves_table
    (s : CassStatement) (i : Nat) (h : s.bound_values.length ≤ i) :
    cass_statement_bind_null s i = (s, .CASS_ERROR_LIB_INDEX_OUT_OF_BOUNDS) ∧
    (∀ v, cass_statement_bind_int8 s i v = (s, .CASS_ERROR_LIB_INDEX_OUT_OF_BOUNDS)) ∧
    (∀ v, cass_statement_bind_int16 s i v = (s, .CASS_ERROR_LIB_INDEX_OUT_OF_BOUNDS)) ∧
    (∀ v, cass_statement_bind_int32 s i v = (s, .CASS_ERROR_LIB_INDEX_OUT_OF_BOUNDS)) ∧
    (∀ v, cass_statement_bind_int64 s i v = (s, .CASS_ERROR_LIB_INDEX_OUT_OF_BOUNDS)) ∧
    (∀ v, cass_statement_bind_uint32 s i v = (s, .CASS_ERROR_LIB_INDEX_OUT_OF_BOUNDS)) ∧
    (∀ v, cass_statement_bind_float s i v = (s, .CASS_ERROR_LIB_INDEX_OUT_OF_BOUNDS)) ∧
    (∀ v, cass_statement_bind_double s i v = (s, .CASS_ERROR_LIB_INDEX_OUT_OF_BOUNDS)) ∧
    (∀ v, cass_statement_bind_bool s i v = (s, .CASS_ERROR_LIB_INDEX_OUT_OF_BOUNDS)) ∧
    (∀ v, cass_statement_bind_string_n s i v = (s, .CASS_ERROR_LIB_INDEX_OUT_OF_BOUNDS)) ∧
    (∀ v, cass_statement_bind_bytes s i v = (s, .CASS_ERROR_LIB_INDEX_OUT_OF_BOUNDS)) ∧
    (∀ v, cass_statement_bind_inet s i v = (s, .CASS_ERROR_LIB_INDEX_OUT_OF_BOUNDS)) ∧
    (∀ v, cass_statement_bind_uuid s i v = (s, .CASS_ERROR_LIB_INDEX_OUT_OF_BOUNDS)) ∧
    (∀ v, cass_statement_bind_collection s i v = (s, .CASS_ERROR_LIB_INDEX_OUT_OF_BOUNDS)) := by
  have hb : ∀ v, cass_statement_bind_maybe_unset s i v =
      (s, .CASS_ERROR_LIB_INDEX_OUT_OF_BOUNDS) := by
    intro v
    simp [cass_statement_bind_maybe_unset, h]
  refine ⟨hb _, fun v => ?_, fun v => ?_, fun v => ?_, fun v => ?_, fun v => ?_, fun v => ?_,
    fun v => ?_, fun v => ?_, fun v => ?_, fun v => ?_, fun v => ?_, fun v => ?_, fun v => ?_⟩ <;>
    simp [cass_statement_bind_int8, cass_statement_bind_int16, cass_statement_bind_int32,
      cass_statement_bind_int64, cass_statement_bind_uint32, cass_statement_bind_float,
      cass_statement_bind_double, cass_statement_bind_bool, cass_statement_bind_string_n,
      cass_statement_bind_bytes, cass_statement_bind_inet, cass_statement_bind_uuid,
      cass_statement_bind_collection, cass_statement_bind_cql_value, hb]

/-- Witness for C1: a statement created with parameter count 2, bound at
index 3, fails with IndexOutOfBounds and is unchanged. -/
theorem bind_out_of_range_fails_and_preserves_table_witness :
    cass_statement_bind_null sampleStatement2 3 =
      (sampleStatement2, .CASS_ERROR_LIB_INDEX_OUT_OF_BOUNDS) :=
  (bind_out_of_range_fails_and_preserves_table sampleStatement2 3 (by simp [sampleStatement2])).1

/-- C2: a fresh statement with `n` parameters has every slot `Unset`, a state
distinct from the explicit NULL `Set none`; for an in-range index `i`,
binding NULL then an int32 at `i` succeeds twice and leaves slot `i` holding
the integer (last write wins), while every index never bound is still
`Unset`. -/
theorem fresh_slots_unset_and_last_write_wins
    (q : String) (n i : Nat) (v : Int) (s0 : CassStatement)
    (h0 : cass_statement_new_n (some q) n = some s0) (h : i < n) :
    (∀ j, j < n → s0.bound_values[j]? = some .Unset) ∧
    (MaybeUnset.Unset ≠ MaybeUnset.Set (none : Option CqlValue)) ∧
    (cass_statement_bind_null s0 i).2 = .CASS_OK ∧
    (cass_statement_bind_int32 (cass_statement_bind_null s0 i).1 i v).2 = .CASS_OK ∧
    (cass_statement_bind_int32 (cass_statement_bind_null s0 i).1 i v).1.bound_values[i]? =
      some (.Set (some (.Int v))) ∧
    (∀ j, j < n → j ≠ i →
      (cass_statement_bind_int32 (cass_statement_bind_null s0 i).1 i v).1.bound_values[j]? =
        some .Unset) := by
  have hs0 : s0.bound_values = List.replicate n (.Unset : MaybeUnset (Option CqlValue)) := by
    simp [cass_statement_new_n] at h0
    rw [← h0]
  have hlen : s0.bound_values.length = n := by simp [hs0]
  refine ⟨?_, by simp, ?_, ?_, ?_, ?_⟩
  · intro j hj
    rw [hs0]
    exact List.getElem?_replicate_of_lt hj
  · simp [cass_statement_bind_null, cass_statement_bind_maybe_unset, hlen, Nat.not_le_of_lt h]
  · simp [cass_statement_bind_null, cass_statement_bind_int32, cass_statement_bind_cql_value,
      cass_statement_bind_maybe_unset, hlen, Nat.not_le_of_lt h]
  · simp [cass_statement_bind_null, cass_statement_bind_int32, cass_statement_bind_cql_value,
      cass_statement_bind_maybe_unset, hlen, Nat.not_le_of_lt h]
    rw [List.getElem?_set_self]
    simpa [hlen]
  · intro j hj hji
    simp [cass_statement_bind_null, cass_statement_bind_int32, cass_statement_bind_cql_value,
      cass_statement_bind_maybe_unset, hlen, Nat.not_le_of_lt h, List.getElem?_set_ne (Ne.symm hji)]
    rw [hs0]
    exact List.getElem?_replicate_of_lt hj

/-- Reading a cell just modified through `modifyValue` sees the mutation. -/
theorem modifyValue_cells_self (st : ArcStore) (id : Nat)
    (f : PreparedStatement → PreparedStatement) :
    (st.modifyValue id f).cells id = ((st.cells id).1, f (st.cells id).2) := by
  simp [ArcStore.modifyValue]

/-- After `Arc::make_mut` on a shared cell (strong count at least 2) followed
by any mutation of the resulting exclusive cell, the original cell still
holds its old value. -/
theorem makeMut_modify_preserves_shared_cell (st : ArcStore) (c rc : Nat)
    (v : PreparedStatement) (f : PreparedStatement → PreparedStatement)
    (hc : c < st.next) (hcell : st.cells c = (rc, v)) (hrc : 2 ≤ rc) :
    (((st.makeMut c).1.modifyValue (st.makeMut c).2 f).cells c).2 = v := by
  have h1 : ¬(rc ≤ 1) := by omega
  have hne : c ≠ st.next := Nat.ne_of_lt hc
  simp [ArcStore.makeMut, ArcStore.modifyValue, h1, hne, hcell]

/-- Witness for C2: parameter count 2, NULL then 42 bound at index 0; slot 0
holds 42 and slot 1 is still Unset. -/
theorem fresh_slots_unset_and_last_write_wins_witness :
    (cass_statement_bind_int32
      (cass_statement_bind_null sampleStatement2 0).1 0 42).1.bound_values[0]? =
      some (.Set (some (.Int 42))) :=
  (fresh_slots_unset_and_last_write_wins "INSERT INTO t VALUES (?, ?)" 2 0 42 sampleStatement2
    (by simp [cass_statement_new_n, sampleStatement2, List.replicate]) (by simp)).2.2.2.2.1

/-- A shared prepared-statement heap with one cell of strong count 2, used by
witnesses. -/
def sampleArcStore : ArcStore :=
  { cells := fun _ => (2, { tracing := false, page_size := none, is_idempotent := false }),
    next := 1 }

/-- First handle onto the shared prepared statement of `sampleArcStore`. -/
def samplePreparedA : CassStatement :=
  { statement := .Prepared 0, bound_values := [], paging_state := none }

/-- Second handle onto the same shared prepared statement. -/
def samplePreparedB : CassStatement :=
  { statement := .Prepared 0, bound_values := [], paging_state := none }

/-- C3: when two statement handles A and B both hold the same shared
prepared-statement cell (strong count at least 2), each mutating operation on
A — set tracing, set paging size, set idempotency — first obtains an
exclusive private copy (`Arc::make_mut` clones the shared value), so the
value observed through B afterwards is exactly the value observed before. -/
theorem prepared_mutation_isolated_from_other_handle
    (st : ArcStore) (c rc : Nat) (v : PreparedStatement) (A B : CassStatement)
    (hc : c < st.next) (hcell : st.cells c = (rc, v)) (hrc : 2 ≤ rc)
    (hA : A.statement = .Prepared c) (hB : B.statement = .Prepared c) :
    observePrepared st B = some v ∧
    (∀ enabled, observePrepared (cass_statement_set_tracing st A enabled).1 B = some v) ∧
    (∀ page_size, observePrepared (cass_statement_set_paging_size st A page_size).1 B = some v) ∧
    (∀ flag, observePrepared (cass_statement_set_is_idempotent st A flag).1 B = some v) := by
  have hobs : ∀ st2 : ArcStore, observePrepared st2 B = some (st2.cells c).2 := by
    intro st2
    simp [observePrepared, hB]
  refine ⟨by rw [hobs, hcell], fun enabled => ?_, fun page_size => ?_, fun flag => ?_⟩ <;>
    simp only [cass_statement_set_tracing, cass_statement_set_paging_size,
      cass_statement_set_is_idempotent, hA, hobs] <;>
    rw [makeMut_modify_preserves_shared_cell st c rc v _ hc hcell hrc]

/-- Witness for C3: in the concrete two-owner heap, enabling tracing through
handle A leaves the value observed through handle B unchanged. -/
theorem prepared_mutation_isolated_from_other_handle_witness :
    observePrepared (cass_statement_set_tracing sampleArcStore samplePreparedA 1).1
      samplePreparedB =
      some { tracing := false, page_size := none, is_idempotent := false } :=
  (prepared_mutation_isolated_from_other_handle sampleArcStore 0 2
    { tracing := false, page_size := none, is_idempotent := false }
    samplePreparedA samplePreparedB (by simp [sampleArcStore]) rfl (by simp)
    rfl rfl).2.1 1

/-- C9: for every statement, simple or prepared, `cass_statement_set_paging_size`
returns OK; page size −1 disables paging (no page size observed), a
non-negative page size is stored literally, and a later call overrides an
earlier one: setting −1 and then 100 leaves paging enabled at 100 rows. -/
theorem paging_size_sentinel_and_override (st : ArcStore) (s : CassStatement) (k : Int) :
    (cass_statement_set_paging_size st s k).2.2 = .CASS_OK ∧
    pagingObs (cass_statement_set_paging_size st s (-1)).1
      (cass_statement_set_paging_size st s (-1)).2.1 = none ∧
    (0 ≤ k →
      pagingObs (cass_statement_set_paging_size st s k).1
        (cass_statement_set_paging_size st s k).2.1 = some k) ∧
    (cass_statement_set_paging_size (cass_statement_set_paging_size st s (-1)).1
      (cass_statement_set_paging_size st s (-1)).2.1 100).2.2 = .CASS_OK ∧
    pagingObs
      (cass_statement_set_paging_size (cass_statement_set_paging_size st s (-1)).1
        (cass_statement_set_paging_size st s (-1)).2.1 100).1
      (cass_statement_set_paging_size (cass_statement_set_paging_size st s (-1)).1
        (cass_statement_set_paging_size st s (-1)).2.1 100).2.1 = some 100 := by
  obtain ⟨stm, bv, ps⟩ := s
  cases stm with
  | Simple q =>
    refine ⟨rfl, ?_, ?_, rfl, ?_⟩ <;>
      simp [cass_statement_set_paging_size, pagingObs, Query.disable_paging, Query.set_page_size]
    intro hk
    have : k ≠ -1 := by omega
    simp [this]
  | Prepared id =>
    refine ⟨rfl, ?_, ?_, rfl, ?_⟩ <;>
      simp [cass_statement_set_paging_size, pagingObs, modifyValue_cells_self,
        PreparedStatement.disable_paging, PreparedStatement.set_page_size]
    intro hk
    have : k ≠ -1 := by omega
    simp [this, modifyValue_cells_self]

/-- Witness for C9: on a concrete simple statement, setting page size −1 and
then 100 leaves paging enabled at 100 rows. -/
theorem paging_size_sentinel_and_override_witness :
    pagingObs
      (cass_statement_set_paging_size
        (cass_statement_set_paging_size sampleArcStore sampleStatement2 (-1)).1
        (cass_statement_set_paging_size sampleArcStore sampleStatement2 (-1)).2.1 100).1
      (cass_statement_set_paging_size
        (cass_statement_set_paging_size sampleArcStore sampleStatement2 (-1)).1
        (cass_statement_set_paging_size sampleArcStore sampleStatement2 (-1)).2.1 100).2.1 =
      some 100 :=
  (paging_size_sentinel_and_override sampleArcStore sampleStatement2 100).2.2.2.2

/-- The Rust split iterator always yields at least one entry. -/
theorem splitComma_ne_nil (cs : List Char) : splitComma cs ≠ [] := by
  match cs with
  | [] => simp [splitComma]
  | c :: rest =>
    simp only [splitComma]
    split
    · simp
    · split <;> simp

/-- C4 (contradicted by the code): the source comments that an empty set of
contact points should clear the list, but the split of the empty string
yields one (empty) entry, so the clearing branch is unreachable: after
setting "a,b" and then setting "", the contact-point list still holds both
entries (the empty entry is merely filtered out) while the call reports OK. -/
theorem empty_contact_points_input_does_not_clear :
    (cluster_set_contact_points
        (cluster_set_contact_points cass_cluster_new (some "a,b")).1 (some "")).2 = .CASS_OK ∧
    (cluster_set_contact_points
        (cluster_set_contact_points cass_cluster_new (some "a,b")).1
        (some "")).1.contact_points = ["a", "b"] := by
  constructor <;> decide

/-- C5: a non-NULL input with at least one surviving (non-whitespace) entry
is split on commas, each entry is trimmed, empty entries are dropped, and
the survivors are appended after the existing entries — no existing entry is
removed; in particular appending " a , ,b " yields the prior list followed
by "a" and "b". -/
theorem contact_points_append_trims_and_keeps_existing
    (cluster : CassCluster) (s : String)
    (_h : ((splitCommaStr s).map trimStr).filter (fun cp => !cp.data.isEmpty) ≠ []) :
    (cluster_set_contact_points cluster (some s)).2 = .CASS_OK ∧
    (cluster_set_contact_points cluster (some s)).1.contact_points =
      cluster.contact_points ++
        ((splitCommaStr s).map trimStr).filter (fun cp => !cp.data.isEmpty) ∧
    (cluster_set_contact_points cluster (some " a , ,b ")).1.contact_points =
      cluster.contact_points ++ ["a", "b"] := by
  have hne : ∀ t : String, (splitCommaStr t).isEmpty = false := by
    intro t
    simp [splitCommaStr, List.isEmpty_iff, splitComma_ne_nil]
  have hconcrete :
      ((splitCommaStr " a , ,b ").map trimStr).filter (fun cp => !cp.data.isEmpty) =
        ["a", "b"] := by decide
  refine ⟨?_, ?_, ?_⟩ <;>
    simp [cluster_set_contact_points, hne, hconcrete]

/-- Witness for C5: on a fresh cluster, " a , ,b " appends exactly "a", "b". -/
theorem contact_points_append_trims_and_keeps_existing_witness :
    (cluster_set_contact_points cass_cluster_new (some " a , ,b ")).1.contact_points =
      cass_cluster_new.contact_points ++ ["a", "b"] :=
  (contact_points_append_trims_and_keeps_existing cass_cluster_new " a , ,b "
    (by decide)).2.2

/-- Counterexample for C6: with beta protocol mode enabled, even the single
supported protocol version 4 is rejected with BadParams, so a protocol
version can be invalid although beta mode is enabled. -/
theorem protocol_version_rejected_when_beta_enabled :
    cass_cluster_set_protocol_version
      (cass_cluster_set_use_beta_protocol_version cass_cluster_new 1).1 4 =
      .CASS_ERROR_LIB_BAD_PARAMS := by
  decide

/-- C6 (amended): when beta mode is not enabled the call returns OK exactly
for protocol version 4 and BadParams for every other version; when beta mode
is enabled every requested version (including 4) returns BadParams; the call
reads the configuration through a shared reference and never mutates it. -/
theorem protocol_version_validation (cluster : CassCluster) (v : Int) :
    (¬cluster.use_beta_protocol_version →
      (cass_cluster_set_protocol_version cluster v = .CASS_OK ↔ v = 4)) ∧
    (cluster.use_beta_protocol_version →
      cass_cluster_set_protocol_version cluster v = .CASS_ERROR_LIB_BAD_PARAMS) ∧
    (applyOp cluster (.set_protocol_version v)).1 = cluster := by
  refine ⟨fun hb => ?_, fun hb => ?_, rfl⟩
  · constructor
    · intro hok
      by_contra hv
      simp [cass_cluster_set_protocol_version, hv] at hok
    · intro hv
      simp [cass_cluster_set_protocol_version, hv, hb]
  · simp [cass_cluster_set_protocol_version, hb]

/-- Witness for C6 (amended): a fresh cluster (beta off) accepts version 4. -/
theorem protocol_version_validation_witness :
    cass_cluster_set_protocol_version cass_cluster_new 4 = .CASS_OK :=
  ((protocol_version_validation cass_cluster_new 4).1 (by decide)).mpr rfl

/-- Any single configuration call that is not a valid `set_port` (positive
argument) leaves the stored port unchanged. -/
theorem applyOp_preserves_port (cluster : CassCluster) (op : ClusterOp)
    (hop : ¬op.isValidSetPort) : (applyOp cluster op).1.port = cluster.port := by
  cases op with
  | set_contact_points s =>
    cases s with
    | none => rfl
    | some str =>
      simp only [applyOp, cluster_set_contact_points]
      split <;> rfl
  | set_port p =>
    have hp : p ≤ 0 := by
      simp [ClusterOp.isValidSetPort] at hop
      omega
    simp [applyOp, cass_cluster_set_port, hp]
  | set_load_balance_dc_aware dc uh ar => rfl
  | set_use_beta_protocol_version e => rfl
  | set_constant_speculative_execution_policy d m =>
    simp only [applyOp, cass_cluster_set_constant_speculative_execution_policy]
    split <;> rfl
  | set_consistency c =>
    simp only [applyOp, cass_cluster_set_consistency]
    cases cass_consistency_try_into c <;> rfl
  | set_serial_consistency c =>
    simp only [applyOp, cass_cluster_set_serial_consistency]
    cases cass_serial_consistency_try_into c <;> rfl
  | set_execution_profile n p =>
    simp only [applyOp, cass_cluster_set_execution_profile_n]
    cases n.bind exec_profile_name_try_from with
    | none => rfl
    | some nm => cases p <;> rfl
  | _ => rfl

/-- C7: `cass_cluster_set_port` with a non-positive port returns BadParams
and leaves the whole cluster configuration identical to its pre-call value;
with a positive port it returns OK and stores the port (cast to `u16`), and
the stored port persists across any sequence of configuration calls that
contains no further valid `set_port`. -/
theorem port_rejects_nonpositive_and_persists (cluster : CassCluster) (p : Int) :
    (p ≤ 0 → cass_cluster_set_port cluster p = (cluster, .CASS_ERROR_LIB_BAD_PARAMS)) ∧
    (0 < p →
      (cass_cluster_set_port cluster p).2 = .CASS_OK ∧
      (cass_cluster_set_port cluster p).1 = { cluster with port := (p % 65536).toNat }) ∧
    (∀ ops : List ClusterOp, (∀ o ∈ ops, ¬o.isValidSetPort) →
      (ops.foldl (fun c o => (applyOp c o).1) cluster).port = cluster.port) := by
  refine ⟨fun hp => ?_, fun hp => ?_, fun ops => ?_⟩
  · simp [cass_cluster_set_port, hp]
  · have hp2 : ¬(p ≤ 0) := by omega
    simp [cass_cluster_set_port, hp2]
  · induction ops generalizing cluster with
    | nil => intro _; rfl
    | cons o rest ih =>
      intro hall
      have h1 : (applyOp cluster o).1.port = cluster.port :=
        applyOp_preserves_port cluster o (hall o (by simp))
      have h2 := ih (applyOp cluster o).1 (fun o2 ho2 => hall o2 (by simp [ho2]))
      simp only [List.foldl_cons]
      rw [h2, h1]

/-- Witness for C7: port 0 on a fresh cluster is rejected with the
configuration unchanged. -/
theorem port_rejects_nonpositive_and_persists_witness :
    cass_cluster_set_port cass_cluster_new 0 =
      (cass_cluster_new, .CASS_ERROR_LIB_BAD_PARAMS) :=
  (port_rejects_nonpositive_and_persists cass_cluster_new 0).1 (by decide)

/-- Inserting over an existing key keeps the map size. -/
theorem length_insertProfile_of_mem (m : List (ExecProfileName × CassExecProfile))
    (k : ExecProfileName) (v v0 : CassExecProfile) (h : lookupProfile m k = some v0) :
    (insertProfile m k v).length = m.length := by
  induction m with
  | nil => simp [lookupProfile] at h
  | cons hd tl ih =>
    by_cases hk : hd.1 = k
    · simp [insertProfile, hk]
    · simp only [lookupProfile, if_neg hk] at h
      simp [insertProfile, hk, ih h]

/-- Lookup after insert finds the inserted value. -/
theorem lookupProfile_insertProfile_self (m : List (ExecProfileName × CassExecProfile))
    (k : ExecProfileName) (v : CassExecProfile) :
    lookupProfile (insertProfile m k v) k = some v := by
  induction m with
  | nil => simp [insertProfile, lookupProfile]
  | cons hd tl ih =>
    by_cases hk : hd.1 = k
    · simp [insertProfile, hk, lookupProfile]
    · simp [insertProfile, hk, lookupProfile, ih]

/-- C8: registering an execution profile under a NULL or empty name, or with
a NULL profile pointer, returns BadParams with the cluster (and so the
profile map) unchanged; registering a profile under a valid name that is
already present overwrites that entry with the new profile's snapshot, keeps
the map size unchanged, and lookup afterwards returns the new profile. -/
theorem exec_profile_register_validates_and_overwrites
    (cluster : CassCluster) (s : String) (n : ExecProfileName) (p p0 : CassExecProfile)
    (hs : s.data.isEmpty) (hn : ¬n.name.data.isEmpty)
    (hmem : lookupProfile cluster.execution_profile_map n = some p0) :
    (∀ prof, cass_cluster_set_execution_profile_n cluster none prof =
      (cluster, .CASS_ERROR_LIB_BAD_PARAMS)) ∧
    (∀ prof, cass_cluster_set_execution_profile_n cluster (some s) prof =
      (cluster, .CASS_ERROR_LIB_BAD_PARAMS)) ∧
    (cass_cluster_set_execution_profile_n cluster (some n.name) none =
      (cluster, .CASS_ERROR_LIB_BAD_PARAMS)) ∧
    (cass_cluster_set_execution_profile_n cluster (some n.name) (some p)).2 = .CASS_OK ∧
    (cass_cluster_set_execution_profile_n cluster (some n.name)
        (some p)).1.execution_profile_map.length =
      cluster.execution_profile_map.length ∧
    lookupProfile
      (cass_cluster_set_execution_profile_n cluster (some n.name)
        (some p)).1.execution_profile_map n = some p := by
  have hn2 : n.name.data.isEmpty = false := by
    simpa using hn
  have hvalid : exec_profile_name_try_from n.name = some n := by
    simp [exec_profile_name_try_from, hn2]
  have hs2 : s.data = [] := by simpa using hs
  refine ⟨fun prof => rfl, fun prof => ?_, ?_, ?_, ?_, ?_⟩
  · simp [cass_cluster_set_execution_profile_n, exec_profile_name_try_from, hs2]
  · simp [cass_cluster_set_execution_profile_n, hvalid]
  · simp [cass_cluster_set_execution_profile_n, hvalid]
  · simp [cass_cluster_set_execution_profile_n, hvalid]
    exact length_insertProfile_of_mem _ n p p0 hmem
  · simp [cass_cluster_set_execution_profile_n, hvalid]
    exact lookupProfile_insertProfile_self _ n p

/-- A first sample execution profile. -/
def sampleProfile1 : CassExecProfile :=
  { consistency := some .One, serial_consistency := none,
    retry_policy := none, speculative_execution_policy := none }

/-- A second, different sample execution profile. -/
def sampleProfile2 : CassExecProfile :=
  { consistency := some .Quorum, serial_consistency := some .Serial,
    retry_policy := some .FallthroughRetryPolicy, speculative_execution_policy := none }

/-- Witness for C8: after registering profile 1 under "p1", registering
profile 2 under "p1" again makes lookup of "p1" return profile 2. -/
theorem exec_profile_register_validates_and_overwrites_witness :
    lookupProfile
      (cass_cluster_set_execution_profile_n
        (cass_cluster_set_execution_profile_n cass_cluster_new
          (some "p1") (some sampleProfile1)).1
        (some "p1") (some sampleProfile2)).1.execution_profile_map
      { name := "p1" } = some sampleProfile2 :=
  (exec_profile_register_validates_and_overwrites
    (cass_cluster_set_execution_profile_n cass_cluster_new
      (some "p1") (some sampleProfile1)).1
    "" { name := "p1" } sampleProfile2 sampleProfile1
    (by decide) (by decide) (by decide)).2.2.2.2.2

/-- C10: a port above 65535 (still a positive C int) is accepted with OK and
stored modulo 2^16; in particular 65536 is accepted and stores port 0,
outside the documented 1–65535 range. -/
theorem port_above_u16_wraps_modulo (cluster : CassCluster) (p : Int) (h : 65535 < p) :
    (cass_cluster_set_port cluster p).2 = .CASS_OK ∧
    (cass_cluster_set_port cluster p).1.port = (p % 65536).toNat ∧
    (cass_cluster_set_port cluster 65536).1.port = 0 := by
  have hp : ¬(p ≤ 0) := by omega
  refine ⟨?_, ?_, ?_⟩ <;> simp [cass_cluster_set_port, hp]

/-- Witness for C10: port 65536 on a fresh cluster is accepted and stores 0. -/
theorem port_above_u16_wraps_modulo_witness :
    (cass_cluster_set_port cass_cluster_new 65536).1.port = 0 :=
  (port_above_u16_wraps_modulo cass_cluster_new 65536 (by decide)).2.2

end ScyllaWrapper
